import Mathlib

/-!
# Verification of the blob batch-request helpers

Shallow embedding of `_blob_service_client_helpers.py` and
`_container_client_helpers.py` from the `azure-storage-blob` package:
the URL/SAS parser, the delete-blobs batch-request builder and the
set-tier batch-request builder.

Python values that may be `None` are modelled as `Option`; Python
truthiness (`x or y`, `if not x`) is modelled explicitly, so a present
empty string is falsy exactly as in Python.  Dictionaries built by
conditional insertion of distinct keys are modelled as association
lists in insertion order.  The serialization collaborator
(`client._serialize.query` / `.header`) and the HTTP request value
type are external to this excerpt and are modelled from their
documented contract.
-/

namespace AzureBlobBatch

/-- `MatchConditions` enum of `azure.core`: an enum member is always truthy. -/
inductive MatchConditions where
  | unconditionally
  | ifNotModified
  | ifModified
  | ifPresent
  | ifMissing
  deriving DecidableEq, Repr

/-- Python truthiness of an optional string: `None` and `""` are falsy. -/
def truthyStr : Option String → Bool
  | none => false
  | some s => s ≠ ""

/-- Python truthiness of an optional integer: `None` and `0` are falsy. -/
def truthyNat : Option Nat → Bool
  | none => false
  | some n => n ≠ 0

/-- Python `a or b` on optional strings (an empty string is falsy). -/
def pyOrStr (a b : Option String) : Option String :=
  match a with
  | some s => if s = "" then b else some s
  | none => b

/-- Python `a or b` on optional integers (`0` is falsy). -/
def pyOrNat (a b : Option Nat) : Option Nat :=
  match a with
  | some n => if n = 0 then b else some n
  | none => b

/-- Python `a or b` on optional values that are always truthy when present
(`datetime` objects, enum members). -/
def pyOrVal {α : Type} (a b : Option α) : Option α :=
  match a with
  | some x => some x
  | none => b

/-- Python `str(x)` on an optional blob name: `str(None) = "None"`. -/
def pyStr : Option String → String
  | none => "None"
  | some s => s

/-- UTF-8 encoding of one character, as byte values. -/
def utf8Bytes (c : Char) : List Nat :=
  let n := c.toNat
  if n < 0x80 then [n]
  else if n < 0x800 then [0xC0 + n / 64, 0x80 + n % 64]
  else if n < 0x10000 then [0xE0 + n / 4096, 0x80 + (n / 64) % 64, 0x80 + n % 64]
  else [0xF0 + n / 262144, 0x80 + (n / 4096) % 64, 0x80 + (n / 64) % 64, 0x80 + n % 64]

/-- Upper-case hexadecimal digit, as in `urllib.parse.quote`. -/
def hexDigit (n : Nat) : Char :=
  if n < 10 then Char.ofNat (48 + n) else Char.ofNat (55 + n)

/-- Is the byte in `urllib.parse.quote`'s always-safe set
(ASCII letters, digits, `_`, `.`, `-`, `~`)? -/
def alwaysSafeByte (b : Nat) : Bool :=
  (65 ≤ b && b ≤ 90) || (97 ≤ b && b ≤ 122) || (48 ≤ b && b ≤ 57) ||
    b = 95 || b = 46 || b = 45 || b = 126

/-- Percent-encoding of one UTF-8 byte, as in `urllib.parse.quote`. -/
def quoteByte (safe : List Char) (b : Nat) : String :=
  if alwaysSafeByte b || (b < 128 && (safe.contains (Char.ofNat b) : Bool)) then
    String.singleton (Char.ofNat b)
  else
    "%" ++ String.singleton (hexDigit (b / 16)) ++ String.singleton (hexDigit (b % 16))

/-- `urllib.parse.quote(s, safe=...)`: percent-encode the UTF-8 bytes of `s`,
leaving the always-safe characters and the extra `safe` characters intact. -/
def quote (safe : List Char) (s : String) : String :=
  String.join ((s.toList.flatMap utf8Bytes).map (quoteByte safe))

/-- `quote(container_name)` with Python's default `safe='/'`. -/
def quoteDefault (s : String) : String := quote ['/'] s

/-- `quote(str(blob_name), safe='/~')`. -/
def quoteBlobName (s : String) : String := quote ['/', '~'] s

/-- First-match lookup in an association list, as in a Python `dict`
built with distinct keys. -/
def lookupKey (k : String) : List (String × String) → Option String
  | [] => none
  | (k', v) :: rest => if k' = k then some v else lookupKey k rest

/-- Conditional single-entry block: a `dict` insertion
`if v is not None: m[k] = render(v)` contributes this block. -/
def optEntry {α : Type} (k : String) (v : Option α) (render : α → String) :
    List (String × String) :=
  match v with
  | some x => [(k, render x)]
  | none => []

/-- A dict-form batch item.  Keys documented in the builders' docstrings:
`name`, `snapshot`, `version_id`, `delete_snapshots`, `if_modified_since`,
`if_unmodified_since`, `etag`, `match_condition`, `if_tags_match_condition`,
`lease_id`, `timeout`, and for tiering `blob_tier` and `rehydrate_priority`.
A missing key is `none` (Python `dict.get` returns `None`).  `datetime`
values are modelled as `Nat` timestamps (always truthy, as in Python). -/
structure BlobDict where
  name : Option String := none
  snapshot : Option String := none
  version_id : Option String := none
  delete_snapshots : Option String := none
  if_modified_since : Option Nat := none
  if_unmodified_since : Option Nat := none
  etag : Option String := none
  match_condition : Option MatchConditions := none
  if_tags_match_condition : Option String := none
  lease_id : Option String := none
  timeout : Option Nat := none
  blob_tier : Option String := none
  rehydrate_priority : Option String := none

/-- A batch item: either a bare blob name (`str`) or a dict-form record
(a `BlobProperties` value behaves as the dict form via `.get`). -/
inductive Blob where
  | str (name : String)
  | dict (d : BlobDict)

/-- Modelled from the spec: the external serialization collaborator's
`serialize.query(name, value, 'str')` / `serialize.header(name, value, 'str')`
render a string value as itself. -/
def serializeStr (s : String) : String := s

/-- Modelled from the spec: `serialize.query("timeout", timeout, 'int', minimum=0)`
renders a non-negative integer in decimal (the `minimum=0` constraint is
captured by using `Nat`). -/
def serializeNat (n : Nat) : String := toString n

/-- Modelled from the spec: `serialize.header(name, value, 'rfc-1123')` renders a
datetime in RFC-1123 form; the rendering itself is opaque to this layer, so the
timestamp is rendered in decimal. -/
def serializeRfc1123 (t : Nat) : String := toString t

/-- `LeaseAccessConditions` of the generated models: carries a lease id. -/
structure LeaseAccessConditions where
  lease_id : Option String := none

/-- `ModifiedAccessConditions` of the generated models. -/
structure ModifiedAccessConditions where
  if_modified_since : Option Nat := none
  if_unmodified_since : Option Nat := none
  if_match : Option String := none
  if_none_match : Option String := none
  if_tags : Option String := none

/-- The options dictionary produced by `_generic_delete_blob_options` and
consumed (as `**options`) by `_generate_delete_blobs_subrequest_options`. -/
structure DeleteBlobOptions where
  snapshot : Option String := none
  version_id : Option String := none
  delete_snapshots : Option String := none
  lease_access_conditions : Option LeaseAccessConditions := none
  modified_access_conditions : Option ModifiedAccessConditions := none
  timeout : Option Nat := none

/-- Modelled from the spec: the etag/match-condition pair is turned into the
`if_match` / `if_none_match` precondition values ("if-not-modified" semantics
places the etag in `If-Match`, "if-modified" places it in `If-None-Match`, the
presence checks use `*`); missing in the excerpt (`_blob_client_helpers` /
`_shared.request_handlers`). -/
def matchHeaders (match_condition : Option MatchConditions) (etag : Option String) :
    Option String × Option String :=
  match match_condition with
  | some .ifNotModified => (etag, none)
  | some .ifModified => (none, etag)
  | some .ifPresent => (some "*", none)
  | some .ifMissing => (none, some "*")
  | some .unconditionally => (none, none)
  | none => (none, none)

/-- Modelled from the spec: `_generic_delete_blob_options` (defined in
`_blob_client_helpers`, not part of this excerpt) packages the per-item values
into the sub-request options: the lease id into lease access conditions, the
modification-time preconditions, tag condition and the derived etag match
headers into modified access conditions, and `snapshot`, `version_id`,
`delete_snapshots` and `timeout` passed through unchanged. -/
def genericDeleteBlobOptions (snapshot version_id delete_snapshots : Option String)
    (lease : Option String) (if_modified_since if_unmodified_since : Option Nat)
    (etag : Option String) (if_tags_match_condition : Option String)
    (match_condition : Option MatchConditions) (timeout : Option Nat) :
    DeleteBlobOptions :=
  let m := matchHeaders match_condition etag
  { snapshot := snapshot
    version_id := version_id
    delete_snapshots := delete_snapshots
    lease_access_conditions := lease.map (fun l => { lease_id := some l })
    modified_access_conditions := some
      { if_modified_since := if_modified_since
        if_unmodified_since := if_unmodified_since
        if_match := m.1
        if_none_match := m.2
        if_tags := if_tags_match_condition }
    timeout := timeout }

/-- `if modified_access_conditions is not None: x = modified_access_conditions.x`
(the local extraction pattern of both sub-request builders). -/
def modField {α : Type} (opts : DeleteBlobOptions)
    (f : ModifiedAccessConditions → Option α) : Option α :=
  match opts.modified_access_conditions with
  | some m => f m
  | none => none

/-- `if lease_access_conditions is not None: lease_id = lease_access_conditions.lease_id`. -/
def leaseIdOf (lac : Option LeaseAccessConditions) : Option String :=
  match lac with
  | some l => l.lease_id
  | none => none

/-- `_generate_delete_blobs_subrequest_options`: the query parameters
(`snapshot`, `versionid`, `timeout`) and headers (`x-ms-delete-snapshots`,
`x-ms-lease-id`, `If-Modified-Since`, `If-Unmodified-Since`, `If-Match`,
`If-None-Match`, `x-ms-if-tags`) of one delete sub-request, each inserted only
when its source value is not `None`, in the source's insertion order. -/
def generateDeleteBlobsSubrequestOptions (opts : DeleteBlobOptions) :
    List (String × String) × List (String × String) :=
  let lease_id := leaseIdOf opts.lease_access_conditions
  let if_modified_since := modField opts ModifiedAccessConditions.if_modified_since
  let if_unmodified_since := modField opts ModifiedAccessConditions.if_unmodified_since
  let if_match := modField opts ModifiedAccessConditions.if_match
  let if_none_match := modField opts ModifiedAccessConditions.if_none_match
  let if_tags := modField opts ModifiedAccessConditions.if_tags
  let query_parameters :=
    optEntry "snapshot" opts.snapshot serializeStr ++
    optEntry "versionid" opts.version_id serializeStr ++
    optEntry "timeout" opts.timeout serializeNat
  let header_parameters :=
    optEntry "x-ms-delete-snapshots" opts.delete_snapshots serializeStr ++
    optEntry "x-ms-lease-id" lease_id serializeStr ++
    optEntry "If-Modified-Since" if_modified_since serializeRfc1123 ++
    optEntry "If-Unmodified-Since" if_unmodified_since serializeRfc1123 ++
    optEntry "If-Match" if_match serializeStr ++
    optEntry "If-None-Match" if_none_match serializeStr ++
    optEntry "x-ms-if-tags" if_tags serializeStr
  (query_parameters, header_parameters)

/-- `_generate_set_tiers_subrequest_options`: raises when the tier is falsy,
then when snapshot and version id are both truthy; then, when
`lease_access_conditions` is not `None`, it dereferences
`lease_access_conditions.lease_id` — the set-tier loop passes the raw
item-level lease value here (a string, per the documented item type), and the
attribute access on a string raises `AttributeError`, so a present value
aborts the builder.  Otherwise it builds the query parameters (conditional
`snapshot`, `versionid`, `timeout`, then mandatory `comp=tier`) and the
headers (mandatory `x-ms-access-tier`, then conditional
`x-ms-rehydrate-priority`, `x-ms-lease-id`, `x-ms-if-tags`). -/
def generateSetTiersSubrequestOptions (tier : Option String)
    (snapshot version_id : Option String) (rehydrate_priority : Option String)
    (lease_access_conditions : Option String) (if_tags : Option String)
    (timeout : Option Nat) :
    Except String (List (String × String) × List (String × String)) :=
  if ¬ truthyStr tier then
    .error "A blob tier must be specified"
  else if truthyStr snapshot && truthyStr version_id then
    .error "Snapshot and version_id cannot be set at the same time"
  else
    match lease_access_conditions with
    | some _ => .error "AttributeError: 'str' object has no attribute 'lease_id'"
    | none =>
      let lease_id : Option String := none
      let query_parameters :=
        optEntry "snapshot" snapshot serializeStr ++
        optEntry "versionid" version_id serializeStr ++
        optEntry "timeout" timeout serializeNat ++
        [("comp", serializeStr "tier")]
      let header_parameters :=
        [("x-ms-access-tier", serializeStr (pyStr tier))] ++
        optEntry "x-ms-rehydrate-priority" rehydrate_priority serializeStr ++
        optEntry "x-ms-lease-id" lease_id serializeStr ++
        optEntry "x-ms-if-tags" if_tags serializeStr
      .ok (query_parameters, header_parameters)

/-- Modelled from the spec: the external HTTP request value type, with a
method, a URL (path plus original query string), a header mapping, and a
method to attach query parameters. -/
structure HttpRequest where
  method : String
  url : String
  headers : List (String × String)
  queryParams : List (String × String) := []
  deriving Repr

/-- Modelled from the spec: `req.format_parameters(query_parameters)` attaches
the query parameters to the request. -/
def formatParameters (r : HttpRequest) (qp : List (String × String)) : HttpRequest :=
  { r with queryParams := qp }

/-- Call-level override options of `_generate_delete_blobs_options`
(popped from `**kwargs`; a missing keyword is `none`). -/
structure DeleteCallOptions where
  timeout : Option Nat := none
  raise_on_any_failure : Bool := true
  delete_snapshots : Option String := none
  if_modified_since : Option Nat := none
  if_unmodified_since : Option Nat := none
  if_tags_match_condition : Option String := none

/-- Call-level override options of `_generate_set_tiers_options`. -/
structure SetTierCallOptions where
  timeout : Option Nat := none
  raise_on_any_failure : Bool := true
  rehydrate_priority : Option String := none
  if_tags_match_condition : Option String := none

/-- The residual options mapping both builders update and return. -/
structure BatchKwargs where
  raise_on_any_failure : Bool
  sas : String
  timeout : String
  path : String
  restype : String
  deriving Repr

/-- The residual-options update shared by both builders:
`sas = query_str.replace('?', '&')`,
`timeout = '&timeout=' + str(timeout) if timeout else ''`,
`path = container_name`, `restype = 'restype=container&'`. -/
def batchKwargs (query_str container_name : String) (raise_on_any_failure : Bool)
    (timeout : Option Nat) : BatchKwargs :=
  { raise_on_any_failure := raise_on_any_failure
    sas := query_str.replace "?" "&"
    timeout := if truthyNat timeout then "&timeout=" ++ toString (timeout.getD 0) else ""
    path := container_name
    restype := "restype=container&" }

/-- `blob.get('match_condition') or MatchConditions.IfNotModified if blob.get('etag')
else None` — Python parses this as
`(d.match_condition or IfNotModified) if truthy d.etag else None`. -/
def derivedMatchCondition (d : BlobDict) : Option MatchConditions :=
  if truthyStr d.etag then pyOrVal d.match_condition (some .ifNotModified) else none

/-- The per-item options of the dict branch of `_generate_delete_blobs_options`
(lines 216–229): item-level `snapshot`, `version_id`, `etag`, `lease_id` and
`timeout`; call-level-or-item-level `delete_snapshots`, `if_modified_since`,
`if_unmodified_since` and `if_tags_match_condition`; derived match condition. -/
def deleteItemOptions (o : DeleteCallOptions) (d : BlobDict) : DeleteBlobOptions :=
  genericDeleteBlobOptions
    d.snapshot
    d.version_id
    (pyOrStr o.delete_snapshots d.delete_snapshots)
    d.lease_id
    (pyOrVal o.if_modified_since d.if_modified_since)
    (pyOrVal o.if_unmodified_since d.if_unmodified_since)
    d.etag
    (pyOrStr o.if_tags_match_condition d.if_tags_match_condition)
    (derivedMatchCondition d)
    d.timeout

/-- The per-item options of the string branch of `_generate_delete_blobs_options`
(lines 231–237): only the call-level values. -/
def deleteStrOptions (o : DeleteCallOptions) : DeleteBlobOptions :=
  genericDeleteBlobOptions
    none none o.delete_snapshots none
    o.if_modified_since o.if_unmodified_since
    none o.if_tags_match_condition none none

/-- The blob name of an item: the `name` key for the dict form
(`None` when absent), the string itself otherwise. -/
def blobNameOf : Blob → Option String
  | .str s => some s
  | .dict d => d.name

/-- The sub-request URL: `/` + `quote(container_name)` + `/` +
`quote(str(blob_name), safe='/~')` + the original query string. -/
def subrequestUrl (query_str container_name : String) (blob_name : Option String) :
    String :=
  "/" ++ quoteDefault container_name ++ "/" ++ quoteBlobName (pyStr blob_name) ++ query_str

/-- One iteration of the loop of `_generate_delete_blobs_options`: resolve the
per-item options, build the sub-request mappings, and build the DELETE request. -/
def deleteReq (query_str container_name : String) (o : DeleteCallOptions)
    (blob : Blob) : HttpRequest :=
  let options :=
    match blob with
    | .dict d => deleteItemOptions o d
    | .str _ => deleteStrOptions o
  let qh := generateDeleteBlobsSubrequestOptions options
  formatParameters
    { method := "DELETE"
      url := subrequestUrl query_str container_name (blobNameOf blob)
      headers := qh.2 }
    qh.1

/-- `_generate_delete_blobs_options`: one DELETE request per item, appended in
input order, plus the residual options mapping. -/
def generateDeleteBlobsOptions (query_str container_name : String) (blobs : List Blob)
    (o : DeleteCallOptions) : List HttpRequest × BatchKwargs :=
  (blobs.foldl (fun reqs blob => reqs ++ [deleteReq query_str container_name o blob]) [],
   batchKwargs query_str container_name o.raise_on_any_failure o.timeout)

/-- The sub-request argument block of the dict branch of
`_generate_set_tiers_options` (lines 381–392). -/
structure SetTierSubArgs where
  tier : Option String
  snapshot : Option String
  version_id : Option String
  rehydrate_priority : Option String
  lease_access_conditions : Option String
  if_tags : Option String
  timeout : Option Nat

/-- The per-item sub-request arguments of `_generate_set_tiers_options`:
for the dict form, `tier = blob_tier or blob.get('blob_tier')`, item-level
snapshot/version id/lease, call-level-or-item-level rehydrate priority, tag
condition and timeout; for the string form, only the call-level tier,
rehydrate priority and tag condition (no timeout is forwarded). -/
def setTierItemArgs (blob_tier : Option String) (o : SetTierCallOptions) :
    Blob → SetTierSubArgs
  | .dict d =>
      { tier := pyOrStr blob_tier d.blob_tier
        snapshot := d.snapshot
        version_id := d.version_id
        rehydrate_priority := pyOrStr o.rehydrate_priority d.rehydrate_priority
        lease_access_conditions := d.lease_id
        if_tags := pyOrStr o.if_tags_match_condition d.if_tags_match_condition
        timeout := pyOrNat o.timeout d.timeout }
  | .str _ =>
      { tier := blob_tier
        snapshot := none
        version_id := none
        rehydrate_priority := o.rehydrate_priority
        lease_access_conditions := none
        if_tags := o.if_tags_match_condition
        timeout := none }

/-- One iteration of the loop of `_generate_set_tiers_options`: build the
sub-request mappings (which may raise) and then the PUT request. -/
def setTierReq (query_str container_name : String) (blob_tier : Option String)
    (o : SetTierCallOptions) (blob : Blob) : Except String HttpRequest :=
  let a := setTierItemArgs blob_tier o blob
  match generateSetTiersSubrequestOptions a.tier a.snapshot a.version_id
      a.rehydrate_priority a.lease_access_conditions a.if_tags a.timeout with
  | .error e => .error e
  | .ok qh =>
      .ok (formatParameters
        { method := "PUT"
          url := subrequestUrl query_str container_name (blobNameOf blob)
          headers := qh.2 }
        qh.1)

/-- The request loop of `_generate_set_tiers_options`: requests are appended in
input order; an exception raised for any item aborts the whole builder. -/
def setTierReqs (query_str container_name : String) (blob_tier : Option String)
    (o : SetTierCallOptions) : List Blob → Except String (List HttpRequest)
  | [] => .ok []
  | blob :: rest =>
      match setTierReq query_str container_name blob_tier o blob with
      | .error e => .error e
      | .ok req =>
          match setTierReqs query_str container_name blob_tier o rest with
          | .error e => .error e
          | .ok reqs => .ok (req :: reqs)

/-- `_generate_set_tiers_options`: one PUT request per item in input order plus
the residual options mapping, or the invalid-argument error raised for some item. -/
def generateSetTiersOptions (query_str container_name : String)
    (blob_tier : Option String) (blobs : List Blob) (o : SetTierCallOptions) :
    Except String (List HttpRequest × BatchKwargs) :=
  match setTierReqs query_str container_name blob_tier o blobs with
  | .error e => .error e
  | .ok reqs =>
      .ok (reqs, batchKwargs query_str container_name o.raise_on_any_failure o.timeout)

/-- An argument that is either a Python string or some non-string value
(on which `.lower()` raises `AttributeError`). -/
inductive PyInput where
  | str (s : String)
  | nonString

/-- `account_url.rstrip('/')`: remove every trailing `/`. -/
def rstripSlash (s : String) : String :=
  String.mk (s.toList.reverse.dropWhile (fun c => c = '/')).reverse

/-- A character allowed in a URL scheme (`urllib.parse`'s `scheme_chars`). -/
def isSchemeChar (c : Char) : Bool :=
  c.isAlpha || c.isDigit || c = '+' || c = '-' || c = '.'

/-- `urllib.parse.urlsplit`'s scheme splitting: when the text before the first
`:` is a valid scheme starting with an ASCII letter, drop it and the colon. -/
def afterScheme (cs : List Char) : List Char :=
  match cs.findIdx? (fun c => c = ':') with
  | some i =>
      if 0 < i ∧ ((cs.head?.map Char.isAlpha).getD false : Bool) ∧
          ((cs.take i).all isSchemeChar : Bool) then
        cs.drop (i + 1)
      else cs
  | none => cs

/-- `urlparse(u).netloc`: nonempty only when the remainder after the scheme
starts with `//`; the host part extends to the next `/`, `?` or `#`. -/
def netlocOf (s : String) : String :=
  match afterScheme s.toList with
  | '/' :: '/' :: rest =>
      String.mk (rest.takeWhile (fun c => ¬ (c = '/' ∨ c = '?' ∨ c = '#')))
  | _ => ""

/-- `urlparse(u).query`: the part after the first `?`, before any `#`. -/
def queryOf (s : String) : String :=
  match s.toList.findIdx? (fun c => c = '?') with
  | some i => String.mk ((s.toList.drop (i + 1)).takeWhile (fun c => c ≠ '#'))
  | none => ""

/-- ASCII lower-casing of one character (`str.lower` restricted to the ASCII
range, which is all that the `startswith('http')` check can observe). -/
def pyLowerChar (c : Char) : Char :=
  if 65 ≤ c.toNat ∧ c.toNat ≤ 90 then Char.ofNat (c.toNat + 32) else c

/-- Does the first list start with the second? -/
def startsWithList : List Char → List Char → Bool
  | _, [] => true
  | [], _ :: _ => false
  | c :: cs, p :: ps => c = p && startsWithList cs ps

/-- `account_url.lower().startswith('http')`. -/
def startsWithHttp (s : String) : Bool :=
  startsWithList (s.toList.map pyLowerChar) "http".toList

/-- Split a character list on a separator character (`str.split('&')`). -/
def splitOnChar (sep : Char) : List Char → List (List Char)
  | [] => [[]]
  | c :: rest =>
      let r := splitOnChar sep rest
      if c = sep then [] :: r
      else
        match r with
        | [] => [[c]]
        | g :: gs => (c :: g) :: gs

/-- Modelled from the spec: `parse_query` (in `_shared.base_client`, not part
of this excerpt) extracts the SAS token from a query string — present exactly
when the query carries a `sig` parameter, in which case the token is the SAS
query string itself. -/
def parseQuerySas (q : String) : Option String :=
  if (splitOnChar '&' q.toList).any (fun p => startsWithList p "sig=".toList) then
    some q
  else none

/-- The account/container URL after the scheme defaulting of both `_parse_url`
variants: prefix `https://` unless the lower-cased input starts with `http`. -/
def prefixScheme (s : String) : String :=
  if startsWithHttp s then s else "https://" ++ s

/-- The string handed to `urlparse`: scheme-defaulted, trailing slashes stripped. -/
def normalizeAccountUrl (s : String) : String :=
  rstripSlash (prefixScheme s)

/-- The parsed URL and SAS token returned by `_parse_url`. -/
structure UrlParseResult where
  url : String
  netloc : String
  query : String
  sas : Option String
  deriving Repr, DecidableEq

/-- `_parse_url` of `_blob_service_client_helpers`: validates that the account
URL is a string with a host after scheme defaulting and slash stripping, and
extracts the SAS token. -/
def parseUrlService : PyInput → Except String UrlParseResult
  | .nonString => .error "Account URL must be a string."
  | .str s =>
      let prefixed := prefixScheme s
      let u := rstripSlash prefixed
      if netlocOf u = "" then .error ("Invalid URL: " ++ prefixed)
      else .ok { url := u, netloc := netlocOf u, query := queryOf u,
                 sas := parseQuerySas (queryOf u) }

/-- `_parse_url` of `_container_client_helpers`: as the service variant, but
also requires a truthy container name (checked before the host check). -/
def parseUrlContainer : PyInput → Option String → Except String UrlParseResult
  | .nonString, _ => .error "Container URL must be a string."
  | .str s, container_name =>
      let prefixed := prefixScheme s
      let u := rstripSlash prefixed
      if ¬ truthyStr container_name then .error "Please specify a container name."
      else if netlocOf u = "" then .error ("Invalid URL: " ++ prefixed)
      else .ok { url := u, netloc := netlocOf u, query := queryOf u,
                 sas := parseQuerySas (queryOf u) }

/-- Did the computation raise (`Except.error`)? -/
def isErr {α : Type} : Except String α → Bool
  | .error _ => true
  | .ok _ => false

/-- The spec's precedence rule, stated in the spec's words: "given call-level
value V and item-level value W for the same field, the effective value is V
when V is present, else W, else absent".  To be compared with the source's
merging (`pyOrStr` / `pyOrNat` / `pyOrVal`). -/
def specMerge {α : Type} (v w : Option α) : Option α :=
  match v with
  | some x => some x
  | none => w

/-! ## Helper lemmas -/

theorem pyOrVal_none_left {α : Type} (b : Option α) : pyOrVal none b = b := rfl

theorem pyOrVal_none_right {α : Type} (a : Option α) : pyOrVal a none = a := by
  cases a <;> rfl

theorem map_serializeStr (v : Option String) : v.map serializeStr = v := by
  cases v <;> rfl

theorem lookupKey_append (k : String) (xs ys : List (String × String)) :
    lookupKey k (xs ++ ys) = pyOrVal (lookupKey k xs) (lookupKey k ys) := by
  induction xs with
  | nil => rfl
  | cons p rest ih =>
      obtain ⟨k', v⟩ := p
      by_cases h : k' = k <;> simp [lookupKey, h, ih, pyOrVal]

theorem lookupKey_optEntry_self {α : Type} (k : String) (v : Option α) (f : α → String) :
    lookupKey k (optEntry k v f) = v.map f := by
  cases v <;> simp [optEntry, lookupKey]

theorem lookupKey_optEntry_ne {α : Type} {k k' : String} (h : ¬ k' = k) (v : Option α)
    (f : α → String) :
    lookupKey k (optEntry k' v f) = none := by
  cases v <;> simp [optEntry, lookupKey, h]

theorem pyOrStr_eq_specMerge {a b : Option String} (h : a ≠ some "") :
    pyOrStr a b = specMerge a b := by
  cases a with
  | none => rfl
  | some s =>
      have hs : ¬ s = "" := fun hs => h (by rw [hs])
      simp [pyOrStr, specMerge, hs]

theorem pyOrVal_eq_specMerge {α : Type} (a b : Option α) : pyOrVal a b = specMerge a b := rfl

theorem foldl_append_singleton {α β : Type} (f : α → β) (l : List α) (init : List β) :
    l.foldl (fun acc b => acc ++ [f b]) init = init ++ l.map f := by
  induction l generalizing init with
  | nil => simp
  | cons a rest ih => simp [List.foldl, ih]

theorem setTierReqs_ok_spec (qs cn : String) (bt : Option String) (o : SetTierCallOptions)
    (blobs : List Blob) (reqs : List HttpRequest)
    (hok : setTierReqs qs cn bt o blobs = .ok reqs) :
    reqs.length = blobs.length ∧
      ∀ i : Nat, (reqs.get? i).map (Except.ok (ε := String))
        = (blobs.get? i).map (setTierReq qs cn bt o) := by
  induction blobs generalizing reqs with
  | nil =>
      simp only [setTierReqs] at hok
      cases hok
      exact ⟨rfl, fun i => by cases i <;> rfl⟩
  | cons b rest ih =>
      simp only [setTierReqs] at hok
      cases hb : setTierReq qs cn bt o b with
      | error e => rw [hb] at hok; cases hok
      | ok req =>
          rw [hb] at hok
          cases hr : setTierReqs qs cn bt o rest with
          | error e => rw [hr] at hok; cases hok
          | ok rs =>
              rw [hr] at hok
              cases hok
              obtain ⟨hlen, hget⟩ := ih rs hr
              refine ⟨by simp [hlen], fun i => ?_⟩
              cases i with
              | zero => simp [hb]
              | succ j => simpa using hget j

theorem setTierReqs_isErr_of_mem {qs cn : String} {bt : Option String}
    {o : SetTierCallOptions} {blobs : List Blob} {b : Blob} (hmem : b ∈ blobs)
    (hb : isErr (setTierReq qs cn bt o b) = true) :
    isErr (setTierReqs qs cn bt o blobs) = true := by
  induction blobs with
  | nil => cases hmem
  | cons a rest ih =>
      rcases List.mem_cons.mp hmem with h | h
      · cases ha : setTierReq qs cn bt o a with
        | error e => simp [setTierReqs, ha, isErr]
        | ok r => rw [h, ha] at hb; simp [isErr] at hb
      · cases ha : setTierReq qs cn bt o a with
        | error e => simp [setTierReqs, ha, isErr]
        | ok r =>
            have := ih h
            cases hr : setTierReqs qs cn bt o rest with
            | error e => simp [setTierReqs, ha, hr, isErr]
            | ok rs => rw [hr] at this; simp [isErr] at this

/-! ## Claims -/

/-- C1: for every field present at both call level and item level in the two
builders — delete-snapshots mode, if-modified-since, if-unmodified-since and
tag-match condition in the delete-blobs builder; target tier, rehydrate
priority and tag-match condition in the set-tier builder — the effective
per-item value is the call-level value when present, else the item-level
value, else absent (`specMerge`), for every item `d`; the hypotheses only rule
out a present-but-empty call-level string, which is not a value of any of
these fields. -/
theorem call_level_precedence
    (o : DeleteCallOptions) (so : SetTierCallOptions) (blob_tier : Option String)
    (d : BlobDict)
    (hds : o.delete_snapshots ≠ some "")
    (htags : o.if_tags_match_condition ≠ some "")
    (htier : blob_tier ≠ some "")
    (hrp : so.rehydrate_priority ≠ some "")
    (hstags : so.if_tags_match_condition ≠ some "") :
    (deleteItemOptions o d).delete_snapshots
        = specMerge o.delete_snapshots d.delete_snapshots
    ∧ (deleteItemOptions o d).modified_access_conditions.map
          ModifiedAccessConditions.if_modified_since
        = some (specMerge o.if_modified_since d.if_modified_since)
    ∧ (deleteItemOptions o d).modified_access_conditions.map
          ModifiedAccessConditions.if_unmodified_since
        = some (specMerge o.if_unmodified_since d.if_unmodified_since)
    ∧ (deleteItemOptions o d).modified_access_conditions.map
          ModifiedAccessConditions.if_tags
        = some (specMerge o.if_tags_match_condition d.if_tags_match_condition)
    ∧ (setTierItemArgs blob_tier so (.dict d)).tier = specMerge blob_tier d.blob_tier
    ∧ (setTierItemArgs blob_tier so (.dict d)).rehydrate_priority
        = specMerge so.rehydrate_priority d.rehydrate_priority
    ∧ (setTierItemArgs blob_tier so (.dict d)).if_tags
        = specMerge so.if_tags_match_condition d.if_tags_match_condition := by
  refine ⟨?_, ?_, ?_, ?_, ?_, ?_, ?_⟩ <;>
    simp [deleteItemOptions, genericDeleteBlobOptions, setTierItemArgs,
      pyOrStr_eq_specMerge, hds, htags, htier, hrp, hstags, pyOrVal_eq_specMerge]

/-- Witness for C1 at concrete call-level and item-level values. -/
theorem call_level_precedence_witness :
    ((some "include" : Option String) ≠ some "")
    ∧ ((some "k=v" : Option String) ≠ some "")
    ∧ ((some "Hot" : Option String) ≠ some "")
    ∧ ((some "High" : Option String) ≠ some "")
    ∧ ((none : Option String) ≠ some "")
    ∧ (let o : DeleteCallOptions :=
        { delete_snapshots := some "include", if_modified_since := some 11,
          if_tags_match_condition := some "k=v" }
       let so : SetTierCallOptions := { rehydrate_priority := some "High" }
       let d : BlobDict :=
        { delete_snapshots := some "only", if_modified_since := some 22,
          if_unmodified_since := some 33, if_tags_match_condition := some "w=z",
          blob_tier := some "Cool", rehydrate_priority := some "Standard" }
       (deleteItemOptions o d).delete_snapshots
           = specMerge o.delete_snapshots d.delete_snapshots
       ∧ (deleteItemOptions o d).modified_access_conditions.map
             ModifiedAccessConditions.if_modified_since
           = some (specMerge o.if_modified_since d.if_modified_since)
       ∧ (deleteItemOptions o d).modified_access_conditions.map
             ModifiedAccessConditions.if_unmodified_since
           = some (specMerge o.if_unmodified_since d.if_unmodified_since)
       ∧ (deleteItemOptions o d).modified_access_conditions.map
             ModifiedAccessConditions.if_tags
           = some (specMerge o.if_tags_match_condition d.if_tags_match_condition)
       ∧ (setTierItemArgs (some "Hot") so (.dict d)).tier
           = specMerge (some "Hot") d.blob_tier
       ∧ (setTierItemArgs (some "Hot") so (.dict d)).rehydrate_priority
           = specMerge so.rehydrate_priority d.rehydrate_priority
       ∧ (setTierItemArgs (some "Hot") so (.dict d)).if_tags
           = specMerge so.if_tags_match_condition d.if_tags_match_condition) :=
  ⟨by decide, by decide, by decide, by decide, by decide,
   call_level_precedence _ _ (some "Hot") _
     (by decide) (by decide) (by decide) (by decide) (by decide)⟩

/-- C2 counterexample: with call-level timeout `5` and item-level timeout `7`,
the delete sub-request's `timeout` query parameter is `7` (the item-level
value), while the §3 precedence rule (`specMerge`) demands the call-level `5`. -/
theorem delete_item_timeout_cex :
    lookupKey "timeout"
        (deleteReq "" "c" { timeout := some 5 }
          (.dict { name := some "b", timeout := some 7 })).queryParams
      = some "7"
    ∧ (specMerge (some 5 : Option Nat) (some 7)).map serializeNat = some "5"
    ∧ some ("7" : String) ≠ some "5" :=
  ⟨rfl, rfl, by decide⟩

/-- C2 amended: in the delete-blobs builder the per-item timeout placed in the
sub-request's query parameters is the item-level timeout when present, else
absent; the call-level timeout is never merged into the sub-request (it is
rendered into the batch-level options instead). -/
theorem delete_item_timeout_item_level_only (qs cn : String) (o : DeleteCallOptions)
    (d : BlobDict) :
    lookupKey "timeout" (deleteReq qs cn o (.dict d)).queryParams
      = d.timeout.map serializeNat := by
  simp [deleteReq, formatParameters, deleteItemOptions, genericDeleteBlobOptions,
    generateDeleteBlobsSubrequestOptions, lookupKey_append, lookupKey_optEntry_self,
    lookupKey_optEntry_ne, pyOrVal_none_left, pyOrVal_none_right, map_serializeStr]

/-- C7: in the delete sub-request, each query parameter (`snapshot`,
`versionid`, `timeout`) and each header (`x-ms-delete-snapshots`,
`x-ms-lease-id`, `If-Modified-Since`, `If-Unmodified-Since`, `If-Match`,
`If-None-Match`, `x-ms-if-tags`) maps to exactly the serialization of its
source value when that value is present, and is absent from the mapping (no
key at all) when the source value is absent. -/
theorem delete_subrequest_presence (opts : DeleteBlobOptions) :
    lookupKey "snapshot" (generateDeleteBlobsSubrequestOptions opts).1 = opts.snapshot
    ∧ lookupKey "versionid" (generateDeleteBlobsSubrequestOptions opts).1 = opts.version_id
    ∧ lookupKey "timeout" (generateDeleteBlobsSubrequestOptions opts).1
        = opts.timeout.map serializeNat
    ∧ lookupKey "x-ms-delete-snapshots" (generateDeleteBlobsSubrequestOptions opts).2
        = opts.delete_snapshots
    ∧ lookupKey "x-ms-lease-id" (generateDeleteBlobsSubrequestOptions opts).2
        = leaseIdOf opts.lease_access_conditions
    ∧ lookupKey "If-Modified-Since" (generateDeleteBlobsSubrequestOptions opts).2
        = (modField opts ModifiedAccessConditions.if_modified_since).map serializeRfc1123
    ∧ lookupKey "If-Unmodified-Since" (generateDeleteBlobsSubrequestOptions opts).2
        = (modField opts ModifiedAccessConditions.if_unmodified_since).map serializeRfc1123
    ∧ lookupKey "If-Match" (generateDeleteBlobsSubrequestOptions opts).2
        = modField opts ModifiedAccessConditions.if_match
    ∧ lookupKey "If-None-Match" (generateDeleteBlobsSubrequestOptions opts).2
        = modField opts ModifiedAccessConditions.if_none_match
    ∧ lookupKey "x-ms-if-tags" (generateDeleteBlobsSubrequestOptions opts).2
        = modField opts ModifiedAccessConditions.if_tags := by
  refine ⟨?_, ?_, ?_, ?_, ?_, ?_, ?_, ?_, ?_, ?_⟩ <;>
    simp [generateDeleteBlobsSubrequestOptions, lookupKey_append, lookupKey_optEntry_self,
      lookupKey_optEntry_ne, pyOrVal_none_left, pyOrVal_none_right, map_serializeStr]

theorem isErr_generateSetTiers {qs cn : String} {bt : Option String}
    {so : SetTierCallOptions} {blobs : List Blob}
    (h : isErr (setTierReqs qs cn bt so blobs) = true) :
    isErr (generateSetTiersOptions qs cn bt blobs so) = true := by
  cases hr : setTierReqs qs cn bt so blobs with
  | error e => simp [generateSetTiersOptions, hr, isErr]
  | ok rs => rw [hr] at h; simp [isErr] at h

/-- C3: both builders return exactly one request per item, in input order: the
`i`-th returned request is the one built from the `i`-th input item, for
batches of any size (including 0 and 1); for the set-tier builder this holds
whenever it returns instead of raising. -/
theorem one_request_per_item_in_order (qs cn : String) (o : DeleteCallOptions)
    (bt : Option String) (so : SetTierCallOptions) (blobs : List Blob)
    (rs : List HttpRequest) (k : BatchKwargs)
    (hok : generateSetTiersOptions qs cn bt blobs so = .ok (rs, k)) :
    ((generateDeleteBlobsOptions qs cn blobs o).1.length = blobs.length
      ∧ ∀ i : Nat, (generateDeleteBlobsOptions qs cn blobs o).1.get? i
          = (blobs.get? i).map (deleteReq qs cn o))
    ∧ (rs.length = blobs.length
      ∧ ∀ i : Nat, (rs.get? i).map (Except.ok (ε := String))
          = (blobs.get? i).map (setTierReq qs cn bt so)) := by
  constructor
  · have hfold : (generateDeleteBlobsOptions qs cn blobs o).1
        = blobs.map (deleteReq qs cn o) := by
      simp [generateDeleteBlobsOptions, foldl_append_singleton]
    rw [hfold]
    exact ⟨List.length_map _ _, fun i => by
      simp [List.get?_eq_getElem?, List.getElem?_map]⟩
  · cases hr : setTierReqs qs cn bt so blobs with
    | error e => simp [generateSetTiersOptions, hr] at hok
    | ok reqs =>
        have hrs : reqs = rs := by
          simp [generateSetTiersOptions, hr] at hok
          exact hok.1
        subst hrs
        exact setTierReqs_ok_spec qs cn bt so blobs reqs hr

/-- Witness for C3 on a two-item batch. -/
theorem one_request_per_item_in_order_witness :
    (∃ rs k, generateSetTiersOptions "?q=1" "c" (some "Hot")
        [.str "a", .dict { name := some "b" }] {} = .ok (rs, k)
      ∧ ((generateDeleteBlobsOptions "?q=1" "c" [.str "a", .dict { name := some "b" }]
            {}).1.length = 2
        ∧ ∀ i : Nat, (generateDeleteBlobsOptions "?q=1" "c"
              [.str "a", .dict { name := some "b" }] {}).1.get? i
            = ([Blob.str "a", .dict { name := some "b" }].get? i).map
                (deleteReq "?q=1" "c" {}))
      ∧ (rs.length = 2
        ∧ ∀ i : Nat, (rs.get? i).map (Except.ok (ε := String))
            = ([Blob.str "a", .dict { name := some "b" }].get? i).map
                (setTierReq "?q=1" "c" (some "Hot") {}))) := by
  refine ⟨(generateSetTiersOptions "?q=1" "c" (some "Hot")
      [.str "a", .dict { name := some "b" }] {}).toOption.get (by rfl) |>.1,
    (generateSetTiersOptions "?q=1" "c" (some "Hot")
      [.str "a", .dict { name := some "b" }] {}).toOption.get (by rfl) |>.2, rfl, ?_⟩
  exact one_request_per_item_in_order "?q=1" "c" {} (some "Hot") {}
    [.str "a", .dict { name := some "b" }] _ _ rfl

/-- C4: the set-tier builder raises when some item has no resolvable target
tier (neither a truthy call-level override nor a truthy item-level field), and
raises when some item carries both a snapshot and a version id. -/
theorem set_tier_invalid_argument_errors (qs cn : String) (bt : Option String)
    (so : SetTierCallOptions) (blobs : List Blob) :
    ((∃ b ∈ blobs, truthyStr (setTierItemArgs bt so b).tier = false) →
      isErr (generateSetTiersOptions qs cn bt blobs so) = true)
    ∧ ((∃ d : BlobDict, Blob.dict d ∈ blobs
          ∧ truthyStr d.snapshot = true ∧ truthyStr d.version_id = true) →
      isErr (generateSetTiersOptions qs cn bt blobs so) = true) := by
  constructor
  · rintro ⟨b, hmem, hb⟩
    refine isErr_generateSetTiers (setTierReqs_isErr_of_mem hmem ?_)
    simp [setTierReq, generateSetTiersSubrequestOptions, hb, isErr]
  · rintro ⟨d, hmem, hs, hv⟩
    refine isErr_generateSetTiers (setTierReqs_isErr_of_mem hmem ?_)
    cases htier : truthyStr (pyOrStr bt d.blob_tier) with
    | false => simp [setTierReq, generateSetTiersSubrequestOptions, setTierItemArgs,
        htier, isErr]
    | true => simp [setTierReq, generateSetTiersSubrequestOptions, setTierItemArgs,
        htier, hs, hv, isErr]

/-- Witness for C4: a bare-name item with no tier anywhere, and an item with
both snapshot and version id. -/
theorem set_tier_invalid_argument_errors_witness :
    (∃ b ∈ [Blob.str "a"], truthyStr (setTierItemArgs none {} b).tier = false)
    ∧ isErr (generateSetTiersOptions "" "c" none [Blob.str "a"] {}) = true
    ∧ (∃ d : BlobDict, Blob.dict d ∈
          [Blob.dict { snapshot := some "s", version_id := some "v" }]
        ∧ truthyStr d.snapshot = true ∧ truthyStr d.version_id = true)
    ∧ isErr (generateSetTiersOptions "" "c" (some "Hot")
        [Blob.dict { snapshot := some "s", version_id := some "v" }] {}) = true :=
  ⟨⟨Blob.str "a", by simp, by rfl⟩,
   (set_tier_invalid_argument_errors "" "c" none {} [Blob.str "a"]).1
     ⟨Blob.str "a", by simp, by rfl⟩,
   ⟨{ snapshot := some "s", version_id := some "v" }, by simp, rfl, rfl⟩,
   (set_tier_invalid_argument_errors "" "c" (some "Hot") {}
       [Blob.dict { snapshot := some "s", version_id := some "v" }]).2
     ⟨{ snapshot := some "s", version_id := some "v" }, by simp, rfl, rfl⟩⟩

/-- C5: both URL parsers raise on a non-string input; on a string input the
scheme defaults to `https://` exactly when the lower-cased input does not
start with `http`, trailing slashes are stripped, and an invalid-argument
error is raised when the resulting URL has no host component; the container
variant additionally raises when the container name is empty or absent. -/
theorem parse_url_validation (cn : Option String) (s : String) :
    isErr (parseUrlService .nonString) = true
    ∧ isErr (parseUrlContainer .nonString cn) = true
    ∧ (startsWithHttp s = false → prefixScheme s = "https://" ++ s)
    ∧ (startsWithHttp s = true → prefixScheme s = s)
    ∧ (∀ r, parseUrlService (.str s) = .ok r →
        r.url = rstripSlash (prefixScheme s) ∧ r.netloc = netlocOf r.url ∧ r.netloc ≠ "")
    ∧ (netlocOf (normalizeAccountUrl s) = "" → isErr (parseUrlService (.str s)) = true)
    ∧ isErr (parseUrlContainer (.str s) (some "")) = true
    ∧ isErr (parseUrlContainer (.str s) none) = true
    ∧ (truthyStr cn = true → netlocOf (normalizeAccountUrl s) = "" →
        isErr (parseUrlContainer (.str s) cn) = true) := by
  refine ⟨rfl, rfl, ?_, ?_, ?_, ?_, ?_, ?_, ?_⟩
  · intro h; simp [prefixScheme, h]
  · intro h; simp [prefixScheme, h]
  · intro r hok
    simp only [parseUrlService] at hok
    split at hok
    · cases hok
    · next hne =>
        cases hok
        exact ⟨rfl, rfl, hne⟩
  · intro h
    simp only [normalizeAccountUrl] at h
    simp [parseUrlService, h, isErr]
  · simp [parseUrlContainer, truthyStr, isErr]
  · simp [parseUrlContainer, truthyStr, isErr]
  · intro hcn h
    simp only [normalizeAccountUrl] at h
    simp [parseUrlContainer, hcn, h, isErr]

/-- Witness for C5: a scheme-less account URL with a trailing slash parses to a
normalized host-bearing URL; the empty string yields a host-less URL and an
error; a truthy container name with a host-less URL errors in the container
variant. -/
theorem parse_url_validation_witness :
    (parseUrlService (.str "myaccount.net/")
        = .ok { url := "https://myaccount.net", netloc := "myaccount.net",
                query := "", sas := none })
    ∧ ("https://myaccount.net" : String) = rstripSlash (prefixScheme "myaccount.net/")
    ∧ ("myaccount.net" : String) = netlocOf "https://myaccount.net"
    ∧ ("myaccount.net" : String) ≠ ""
    ∧ startsWithHttp "myaccount.net/" = false
    ∧ prefixScheme "myaccount.net/" = "https://" ++ "myaccount.net/"
    ∧ netlocOf (normalizeAccountUrl "") = ""
    ∧ isErr (parseUrlService (.str "")) = true
    ∧ truthyStr (some "cont") = true
    ∧ isErr (parseUrlContainer (.str "") (some "cont")) = true :=
  ⟨by rfl,
   ((parse_url_validation (some "cont") "myaccount.net/").2.2.2.2.1
     { url := "https://myaccount.net", netloc := "myaccount.net", query := "", sas := none }
     (by rfl)).1.symm,
   ((parse_url_validation (some "cont") "myaccount.net/").2.2.2.2.1
     { url := "https://myaccount.net", netloc := "myaccount.net", query := "", sas := none }
     (by rfl)).2.1.symm,
   ((parse_url_validation (some "cont") "myaccount.net/").2.2.2.2.1
     { url := "https://myaccount.net", netloc := "myaccount.net", query := "", sas := none }
     (by rfl)).2.2,
   by decide,
   (parse_url_validation (some "cont") "myaccount.net/").2.2.1 (by decide),
   by decide,
   (parse_url_validation (some "cont") "").2.2.2.2.2.1 (by decide),
   by decide,
   (parse_url_validation (some "cont") "").2.2.2.2.2.2.2.2 (by decide) (by decide)⟩

/-- C6: a dict-form item with a (truthy) etag and no explicit match condition
derives the "if-not-modified" match condition, and the resulting delete
sub-request carries `If-Match` with the supplied etag (and no `If-None-Match`). -/
theorem delete_etag_derives_if_match (qs cn : String) (o : DeleteCallOptions)
    (d : BlobDict) (e : String) (hetag : d.etag = some e) (he : e ≠ "")
    (hmc : d.match_condition = none) :
    derivedMatchCondition d = some .ifNotModified
    ∧ lookupKey "If-Match" (deleteReq qs cn o (.dict d)).headers = some e
    ∧ lookupKey "If-None-Match" (deleteReq qs cn o (.dict d)).headers = none := by
  have hd : derivedMatchCondition d = some .ifNotModified := by
    simp [derivedMatchCondition, truthyStr, hetag, he, pyOrVal, hmc]
  refine ⟨hd, ?_, ?_⟩ <;>
    simp [deleteReq, formatParameters, deleteItemOptions, genericDeleteBlobOptions, hd,
      matchHeaders, hetag, generateDeleteBlobsSubrequestOptions, modField, leaseIdOf,
      lookupKey_append, lookupKey_optEntry_self, lookupKey_optEntry_ne,
      pyOrVal_none_left, pyOrVal_none_right, map_serializeStr, serializeStr]

/-- Witness for C6 at a concrete item. -/
theorem delete_etag_derives_if_match_witness :
    (({ etag := some "0x8D1", timeout := some 3 } : BlobDict).etag = some "0x8D1")
    ∧ ("0x8D1" : String) ≠ ""
    ∧ (({ etag := some "0x8D1", timeout := some 3 } : BlobDict).match_condition = none)
    ∧ derivedMatchCondition { etag := some "0x8D1", timeout := some 3 }
        = some .ifNotModified
    ∧ lookupKey "If-Match"
        (deleteReq "" "c" {} (.dict { etag := some "0x8D1", timeout := some 3 })).headers
        = some "0x8D1"
    ∧ lookupKey "If-None-Match"
        (deleteReq "" "c" {} (.dict { etag := some "0x8D1", timeout := some 3 })).headers
        = none :=
  ⟨rfl, by decide, rfl,
   (delete_etag_derives_if_match "" "c" {} { etag := some "0x8D1", timeout := some 3 }
     "0x8D1" rfl (by decide) rfl).1,
   (delete_etag_derives_if_match "" "c" {} { etag := some "0x8D1", timeout := some 3 }
     "0x8D1" rfl (by decide) rfl).2.1,
   (delete_etag_derives_if_match "" "c" {} { etag := some "0x8D1", timeout := some 3 }
     "0x8D1" rfl (by decide) rfl).2.2⟩

/-- C9: a dict-form item with a match condition but a falsy etag has its match
condition silently discarded — the derived match condition is absent and the
sub-request carries neither `If-Match` nor `If-None-Match`. -/
theorem delete_match_condition_without_etag_dropped (qs cn : String)
    (o : DeleteCallOptions) (d : BlobDict) (mc : MatchConditions)
    (_hmc : d.match_condition = some mc) (hetag : truthyStr d.etag = false) :
    derivedMatchCondition d = none
    ∧ lookupKey "If-Match" (deleteReq qs cn o (.dict d)).headers = none
    ∧ lookupKey "If-None-Match" (deleteReq qs cn o (.dict d)).headers = none := by
  have hd : derivedMatchCondition d = none := by
    simp [derivedMatchCondition, hetag]
  refine ⟨hd, ?_, ?_⟩ <;>
    simp [deleteReq, formatParameters, deleteItemOptions, genericDeleteBlobOptions, hd,
      matchHeaders, generateDeleteBlobsSubrequestOptions, modField, leaseIdOf,
      lookupKey_append, lookupKey_optEntry_self, lookupKey_optEntry_ne,
      pyOrVal_none_left, pyOrVal_none_right, map_serializeStr]

/-- Witness for C9 at a concrete item carrying a match condition but no etag. -/
theorem delete_match_condition_without_etag_dropped_witness :
    (({ match_condition := some .ifModified } : BlobDict).match_condition
        = some MatchConditions.ifModified)
    ∧ truthyStr ({ match_condition := some .ifModified } : BlobDict).etag = false
    ∧ derivedMatchCondition { match_condition := some .ifModified } = none
    ∧ lookupKey "If-Match"
        (deleteReq "" "c" {} (.dict { match_condition := some .ifModified })).headers = none
    ∧ lookupKey "If-None-Match"
        (deleteReq "" "c" {} (.dict { match_condition := some .ifModified })).headers = none :=
  ⟨rfl, rfl,
   (delete_match_condition_without_etag_dropped "" "c" {}
     { match_condition := some .ifModified } .ifModified rfl rfl).1,
   (delete_match_condition_without_etag_dropped "" "c" {}
     { match_condition := some .ifModified } .ifModified rfl rfl).2.1,
   (delete_match_condition_without_etag_dropped "" "c" {}
     { match_condition := some .ifModified } .ifModified rfl rfl).2.2⟩

/-- C10 counterexample: a name-less dict item with a resolvable tier but a raw
lease-id string makes the set-tier builder raise (`lease_access_conditions.lease_id`
is dereferenced on the raw string), so "neither builder raises an error" is
false at this item. -/
theorem missing_name_set_tier_lease_cex :
    (({ blob_tier := some "Hot", lease_id := some "L" } : BlobDict).name = none)
    ∧ isErr (generateSetTiersOptions "" "c" none
        [.dict { blob_tier := some "Hot", lease_id := some "L" }] {}) = true :=
  ⟨rfl, rfl⟩

/-- C10 amended: a missing `name` key never itself causes an error — the
delete-blobs builder always produces a request whose path carries the literal
string `None` as the blob-name segment, and the set-tier builder produces
such a request whenever its name-independent per-item checks pass (a
resolvable tier, not both snapshot and version id, and no raw lease value,
whose attribute dereference raises regardless of the name). -/
theorem missing_name_yields_None_segment (qs cn : String) (o : DeleteCallOptions)
    (bt : Option String) (so : SetTierCallOptions) (d : BlobDict)
    (hname : d.name = none)
    (htier : truthyStr (pyOrStr bt d.blob_tier) = true)
    (hsv : (truthyStr d.snapshot && truthyStr d.version_id) = false)
    (hlease : d.lease_id = none) :
    (deleteReq qs cn o (.dict d)).url = "/" ++ quoteDefault cn ++ "/None" ++ qs
    ∧ ∃ r, setTierReq qs cn bt so (.dict d) = .ok r
        ∧ r.url = "/" ++ quoteDefault cn ++ "/None" ++ qs := by
  have hq : quoteBlobName (pyStr none) = "None" := by rfl
  have hurl : subrequestUrl qs cn (blobNameOf (.dict d))
      = "/" ++ quoteDefault cn ++ "/None" ++ qs := by
    simp [subrequestUrl, blobNameOf, hname, hq, String.append_assoc,
      (show ("/" : String) ++ "None" = "/None" by rfl)]
  constructor
  · simp [deleteReq, formatParameters, hurl]
  · cases hsub : generateSetTiersSubrequestOptions (pyOrStr bt d.blob_tier) d.snapshot
        d.version_id (pyOrStr so.rehydrate_priority d.rehydrate_priority) d.lease_id
        (pyOrStr so.if_tags_match_condition d.if_tags_match_condition)
        (pyOrNat so.timeout d.timeout) with
    | error e =>
        simp [generateSetTiersSubrequestOptions, htier, hsv, hlease] at hsub
    | ok qh =>
        refine ⟨formatParameters
            { method := "PUT", url := subrequestUrl qs cn (blobNameOf (.dict d)),
              headers := qh.2 } qh.1, ?_, ?_⟩
        · simp [setTierReq, setTierItemArgs, hsub]
        · simpa [formatParameters] using hurl

/-- Witness for the amended C10 at a concrete name-less, lease-less item. -/
theorem missing_name_yields_None_segment_witness :
    (({ blob_tier := some "Hot" } : BlobDict).name = none)
    ∧ truthyStr (pyOrStr none ({ blob_tier := some "Hot" } : BlobDict).blob_tier) = true
    ∧ (truthyStr ({ blob_tier := some "Hot" } : BlobDict).snapshot
        && truthyStr ({ blob_tier := some "Hot" } : BlobDict).version_id) = false
    ∧ (({ blob_tier := some "Hot" } : BlobDict).lease_id = none)
    ∧ ((deleteReq "?s=1" "ctr" {} (.dict { blob_tier := some "Hot" })).url
          = "/" ++ quoteDefault "ctr" ++ "/None" ++ "?s=1"
      ∧ ∃ r, setTierReq "?s=1" "ctr" none {} (.dict { blob_tier := some "Hot" }) = .ok r
          ∧ r.url = "/" ++ quoteDefault "ctr" ++ "/None" ++ "?s=1") :=
  ⟨rfl, rfl, rfl, rfl,
   missing_name_yields_None_segment "?s=1" "ctr" {} none {} _ rfl rfl rfl rfl⟩

/-- C8: the worked example — two items, one bare name and one dict with a
snapshot, against container `mycontainer` and query string `?sv=2020&sig=abc` —
yields exactly two DELETE requests with the stated paths, the second carrying
the `snapshot` query parameter and the first carrying none. -/
theorem delete_blobs_example :
    (generateDeleteBlobsOptions "?sv=2020&sig=abc" "mycontainer"
        [.str "blobA", .dict { name := some "blobB", snapshot := some "2021-01-01T00:00:00" }]
        {}).1.length = 2
    ∧ ((generateDeleteBlobsOptions "?sv=2020&sig=abc" "mycontainer"
        [.str "blobA", .dict { name := some "blobB", snapshot := some "2021-01-01T00:00:00" }]
        {}).1.get? 0).map HttpRequest.method = some "DELETE"
    ∧ ((generateDeleteBlobsOptions "?sv=2020&sig=abc" "mycontainer"
        [.str "blobA", .dict { name := some "blobB", snapshot := some "2021-01-01T00:00:00" }]
        {}).1.get? 0).map HttpRequest.url = some "/mycontainer/blobA?sv=2020&sig=abc"
    ∧ ((generateDeleteBlobsOptions "?sv=2020&sig=abc" "mycontainer"
        [.str "blobA", .dict { name := some "blobB", snapshot := some "2021-01-01T00:00:00" }]
        {}).1.get? 1).map HttpRequest.method = some "DELETE"
    ∧ ((generateDeleteBlobsOptions "?sv=2020&sig=abc" "mycontainer"
        [.str "blobA", .dict { name := some "blobB", snapshot := some "2021-01-01T00:00:00" }]
        {}).1.get? 1).map HttpRequest.url = some "/mycontainer/blobB?sv=2020&sig=abc"
    ∧ ((generateDeleteBlobsOptions "?sv=2020&sig=abc" "mycontainer"
        [.str "blobA", .dict { name := some "blobB", snapshot := some "2021-01-01T00:00:00" }]
        {}).1.get? 1).map (fun r => lookupKey "snapshot" r.queryParams)
        = some (some "2021-01-01T00:00:00")
    ∧ ((generateDeleteBlobsOptions "?sv=2020&sig=abc" "mycontainer"
        [.str "blobA", .dict { name := some "blobB", snapshot := some "2021-01-01T00:00:00" }]
        {}).1.get? 0).map (fun r => lookupKey "snapshot" r.queryParams)
        = some none :=
  ⟨rfl, rfl, rfl, rfl, rfl, rfl, rfl⟩

end AzureBlobBatch
